import Mathlib

/-!
Verification of the voiceapi streaming session engine
(`voiceapi/tts.py`, `voiceapi/speaker_id.py`).

Machine floats are modelled as exact rationals (`ℚ`); the arithmetic
appearing in the verified claims is exact in IEEE double at the sizes
involved.  Opaque inference engines (sherpa-onnx) are modelled as
function parameters.  Text is modelled as `List Char`.
-/

/-- Sentence-splitting delimiters of `tts.py` line 16:
`splitter = re.compile(r'[,，。.!?！？;；、\n]')`. -/
def isSplitDelim (c : Char) : Bool :=
  c == ',' || c == '，' || c == '。' || c == '.' || c == '!' || c == '?' ||
  c == '！' || c == '？' || c == ';' || c == '；' || c == '、' || c == '\n'

/-- Model of `re.split(pattern, text)` for a single-character-class pattern:
split at every delimiter character, keeping empty pieces
(exactly as Python `re.split` does). -/
def splitOnDelims (p : Char → Bool) : List Char → List (List Char)
  | [] => [[]]
  | c :: rest =>
    match splitOnDelims p rest with
    | [] => [[]]
    | g :: gs => if p c then [] :: g :: gs else (c :: g) :: gs

/-- Model of `re.split(splitter, text)` from `TTSStream.write` (`tts.py` line 239). -/
def splitText (text : List Char) : List (List Char) :=
  splitOnDelims isSplitDelim text

/-- Python `str.strip()` (for the ASCII whitespace appearing here). -/
def stripChars (cs : List Char) : List Char :=
  ((cs.dropWhile Char.isWhitespace).reverse.dropWhile Char.isWhitespace).reverse

/-! ## TTS stream (`voiceapi/tts.py`) -/

/-- Model of `TTSResult.__init__` (`tts.py` lines 185-192): the fields not passed
to the constructor default to `0`. -/
structure TTSResult where
  pcm_bytes : Option (List ℤ)
  finished : Bool
  progress : ℚ
  elapsed : ℚ
  audio_duration : ℚ
  audio_size : ℕ
deriving DecidableEq, Repr

/-- Constructor `TTSResult(pcm_bytes, finished)`: remaining fields take their
`__init__` defaults. -/
def mkTTSResult (pcm : Option (List ℤ)) (finished : Bool) : TTSResult :=
  { pcm_bytes := pcm, finished := finished, progress := 0, elapsed := 0,
    audio_duration := 0, audio_size := 0 }

/-- Return value of the engine's blocking `generate` call:
`audio.samples` and `audio.sample_rate` (`tts.py` lines 256-263). -/
structure EngineAudio where
  samples : List ℚ
  sample_rate : ℕ
deriving DecidableEq

/-- One engine invocation, observed through the narrow interface the
stream uses: the sequence of intermediate chunks passed to the
`on_process` callback during synthesis, and the final returned audio
(`none` models a falsy `audio` return). -/
structure EngineOut where
  callbackChunks : List (List ℚ)
  result : Option EngineAudio

/-- The number of samples the code requests from `scipy.signal.resample`:
`int(len(chunk) * target / original)` (`tts.py` lines 224-225 and 308-309).
Python `int()` truncates; on these non-negative values that is the floor,
i.e. `ℕ` division. -/
def ttsResampleRequest (n target original : ℕ) : ℕ :=
  n * target / original

/-- Output length of the resampling step: untouched when the rates agree
(`tts.py` line 223 / 307 guards), otherwise the requested
`scipy.signal.resample` length (scipy returns exactly the requested
number of samples). -/
def ttsOutLen (n target original : ℕ) : ℕ :=
  if target = original then n else ttsResampleRequest n target original

/-- Truncation toward zero of a rational — the semantics of Python
`int()` and of a C cast such as numpy `astype`. -/
def truncToInt (q : ℚ) : ℤ :=
  if 0 ≤ q then ((q.num.toNat / q.den : ℕ) : ℤ)
  else -((((-q.num).toNat / q.den : ℕ) : ℤ))

/-- Model of `astype(np.int16)` after `np.clip(chunk * 32768.0, -32768, 32767)`
(`tts.py` lines 229-231): scale, clip, truncate toward zero. -/
def int16OfSample (q : ℚ) : ℤ :=
  let s := q * 32768
  let c := if s ≤ -32768 then -32768 else if 32767 ≤ s then 32767 else s
  truncToInt c

/-- Encoding `int16_chunk.tobytes()` modelled as the list of int16 sample values. -/
def encodePcm16 (xs : List ℚ) : List ℤ :=
  xs.map int16OfSample

/-- The non-final `TTSResult` built by `TTSStream.on_process` for an open
stream (`tts.py` lines 222-233): resample to the target rate when it
differs from the native rate (the FFT resampler `rs` is an opaque
collaborator), then scale/clip/encode to PCM16.  -/
def onProcessChunk (target original : ℕ) (rs : List ℚ → ℕ → List ℚ)
    (chunk : List ℚ) : TTSResult :=
  let c := if target ≠ original then
    rs chunk (ttsResampleRequest chunk.length target original) else chunk
  mkTTSResult (some (encodePcm16 c)) false

/-- Model of `TTSStream.on_process` (`tts.py` lines 218-234): the result enqueued
on `outbuf`, if any — a closed stream returns immediately and enqueues
nothing. -/
def onProcess (closed : Bool) (target original : ℕ)
    (rs : List ℚ → ℕ → List ℚ) (chunk : List ℚ) : Option TTSResult :=
  if closed then none else some (onProcessChunk target original rs chunk)

/-- Length `int(audio.sample_rate * pause)` — the length of the silence gap
buffer `np.zeros(...)` of `tts.py` line 266. -/
def gapLen (rate : ℕ) (pause : ℚ) : ℕ :=
  (truncToInt ((rate : ℚ) * pause)).toNat

/-- One iteration of the segment loop of `TTSStream.write`
(`tts.py` lines 246-271) for an already stripped, non-empty segment:
the results enqueued on `outbuf`, the increment of the running
`audio_duration`, and the increment of the running `audio_size`.
`needGap` is `split and idx < len(texts) - 1`. -/
def segmentOut (gen : List Char → EngineOut) (closed : Bool)
    (target original : ℕ) (rs : List ℚ → ℕ → List ℚ) (needGap : Bool)
    (pause : ℚ) (text : List Char) : List TTSResult × ℚ × ℕ :=
  let eo := gen text
  let chunkRes := eo.callbackChunks.filterMap (onProcess closed target original rs)
  match eo.result with
  | none => (chunkRes, 0, 0)
  | some audio =>
    if audio.sample_rate = 0 ∨ audio.samples = [] then (chunkRes, 0, 0)
    else
      let g := if needGap then gapLen audio.sample_rate pause else 0
      let gapRes := if needGap then
        (onProcess closed target original rs (List.replicate g 0)).toList else []
      let total := audio.samples.length + g
      (chunkRes ++ gapRes, (total : ℚ) / (audio.sample_rate : ℚ), total)

/-- The `for idx, text in enumerate(texts)` loop of `TTSStream.write`
(`tts.py` lines 246-271): `n` is `len(texts)`; segments that are empty
after stripping are skipped before any other processing. -/
def writeLoop (gen : List Char → EngineOut) (closed : Bool)
    (target original : ℕ) (rs : List ℚ → ℕ → List ℚ) (split : Bool)
    (pause : ℚ) (n : ℕ) : ℕ → List (List Char) → List TTSResult × ℚ × ℕ
  | _, [] => ([], 0, 0)
  | idx, txt :: rest =>
    let tail := writeLoop gen closed target original rs split pause n (idx + 1) rest
    let s := stripChars txt
    if s = [] then tail
    else
      let seg := segmentOut gen closed target original rs
        (split && decide (idx + 1 < n)) pause s
      (seg.1 ++ tail.1, seg.2.1 + tail.2.1, seg.2.2 + tail.2.2)

/-- Model of `TTSStream.write` up to the construction of the final result
(`tts.py` lines 236-275): all results enqueued by the segment loop, the
accumulated `audio_duration`, and the accumulated (then dropped, see
`ttsWrite`) `audio_size`. -/
def ttsWriteAcc (gen : List Char → EngineOut) (closed : Bool)
    (target original : ℕ) (rs : List ℚ → ℕ → List ℚ) (text : List Char)
    (split : Bool) (pause : ℚ) : List TTSResult × ℚ × ℕ :=
  let texts := if split then splitText text else [text]
  writeLoop gen closed target original rs split pause texts.length 0 texts

/-- Model of `TTSStream.write` (`tts.py` lines 236-286): the full sequence of
results the call enqueues on `outbuf`, in order.  `closed` is the value
of `self.is_closed` while the call runs (set when `close()` ran before
the dispatched synthesis produced its callbacks).  `elapsed` is the
wall-clock time measured by the code, which the model takes as a
parameter.  Faithful to the source, the final result's `audio_size` is
the `__init__` default `0`: lines 281-285 assign `elapsed`,
`audio_duration`, `progress` and `finished` but never `audio_size`, and
the final `put` on line 286 is unconditional. -/
def ttsWrite (gen : List Char → EngineOut) (closed : Bool)
    (target original : ℕ) (rs : List ℚ → ℕ → List ℚ) (elapsed : ℚ)
    (text : List Char) (split : Bool) (pause : ℚ) : List TTSResult :=
  let acc := ttsWriteAcc gen closed target original rs text split pause
  acc.1 ++ [{ pcm_bytes := none, finished := true, progress := 1,
              elapsed := elapsed, audio_duration := acc.2.1, audio_size := 0 }]

/-- The state of a `TTSStream` touched by `close()`: the `is_closed`
flag and the `outbuf` queue contents (`none` is the `None` end-of-stream
sentinel). -/
structure TTSStreamState where
  is_closed : Bool
  outbuf : List (Option TTSResult)
deriving DecidableEq

/-- Model of `TTSStream.close` (`tts.py` lines 288-291): set the flag and
unconditionally enqueue the `None` sentinel. -/
def ttsClose (st : TTSStreamState) : TTSStreamState :=
  { is_closed := true, outbuf := st.outbuf ++ [none] }

/-! ## Speaker identification stream (`voiceapi/speaker_id.py`) -/

/-- Model of `SpeakerResult.__init__` (`speaker_id.py` lines 14-18). -/
structure SpeakerResult where
  speaker_id : String
  confidence : ℚ
  embeddings : List ℚ
deriving DecidableEq

/-- The mutable state of a `SpeakerStream` (`speaker_id.py` lines 28-42):
queues are modelled by their contents in FIFO order; `none` in `outbuf`
is the `None` end-of-stream sentinel. -/
structure SpeakerState where
  sample_rate : ℕ
  identification_threshold : ℚ
  is_closed : Bool
  inbuf : List (List ℚ)
  outbuf : List (Option SpeakerResult)
  audio_buffer : List ℚ
deriving DecidableEq

/-- The opaque sherpa-onnx speaker engine, seen through the calls
`SpeakerStream.run` makes: `extractor.is_ready` after a buffer was
accepted, `extractor.compute`, and `manager.search` (which returns a
name, or a falsy value — modelled `none` — when no enrolled speaker
scores above the threshold). -/
structure SpeakerEngine where
  ready : List ℚ → Bool
  compute : List ℚ → List ℚ
  search : List ℚ → ℚ → Option String

/-- Little-endian byte pairing of `np.frombuffer(_, dtype=np.int16)`. -/
def lePairs : List ℕ → List (ℕ × ℕ)
  | lo :: hi :: rest => (lo, hi) :: lePairs rest
  | _ => []

/-- A little-endian byte pair as a signed 16-bit value. -/
def int16OfLE (p : ℕ × ℕ) : ℤ :=
  let v := p.1 + 256 * p.2
  if v < 32768 then (v : ℤ) else (v : ℤ) - 65536

/-- The error message `np.frombuffer` raises on a buffer whose length is
not a multiple of the 2-byte element size. -/
def frombufferError : String :=
  "buffer size must be a multiple of element size"

/-- The decode step of `SpeakerStream.write` (`speaker_id.py` lines
95-96): `np.frombuffer(pcm_bytes, dtype=np.int16)` followed by
`astype(np.float32) / 32768.0`.  `np.frombuffer` raises `ValueError` on
an odd byte length; nothing in `write` catches it. -/
def decodePcm16 (bytes : List ℕ) : Except String (List ℚ) :=
  if bytes.length % 2 ≠ 0 then .error frombufferError
  else .ok ((lePairs bytes).map (fun p => (int16OfLE p : ℚ) / 32768))

/-- Model of `SpeakerStream.write` (`speaker_id.py` lines 94-97): decode the
bytes and enqueue the samples on `inbuf`.  The `Except` error is the
uncaught `ValueError` propagating to the caller. -/
def speakerWrite (st : SpeakerState) (bytes : List ℕ) :
    Except String SpeakerState :=
  (decodePcm16 bytes).map (fun samples => { st with inbuf := st.inbuf ++ [samples] })

/-- One iteration of the `SpeakerStream.run` loop body for an open
stream (`speaker_id.py` lines 50-88), processing one dequeued chunk:
extend the buffer; if the buffered duration reaches `min_duration = 3.0`
seconds and the extractor is ready, compute the embedding, search the
registry with the configured threshold, enqueue the verdict
(`threshold + 0.05` confidence on a match, `"unknown"`/`0.0` otherwise,
the embedding in both cases), and clear the buffer.  When the extractor
is not ready the buffer is left as extended. -/
def speakerStep (eng : SpeakerEngine) (st : SpeakerState)
    (samples : List ℚ) : SpeakerState :=
  let buf := st.audio_buffer ++ samples
  let duration := (buf.length : ℚ) / (st.sample_rate : ℚ)
  if 3 ≤ duration then
    if eng.ready buf then
      let emb := eng.compute buf
      match eng.search emb st.identification_threshold with
      | some name =>
        { st with
          audio_buffer := [],
          outbuf := st.outbuf ++
            [some ⟨name, st.identification_threshold + 1/20, emb⟩] }
      | none =>
        { st with
          audio_buffer := [],
          outbuf := st.outbuf ++ [some ⟨"unknown", 0, emb⟩] }
    else { st with audio_buffer := buf }
  else { st with audio_buffer := buf }

/-- Model of `SpeakerStream.close` (`speaker_id.py` lines 90-92): set the flag
and unconditionally enqueue the `None` sentinel. -/
def speakerClose (st : SpeakerState) : SpeakerState :=
  { st with is_closed := true, outbuf := st.outbuf ++ [none] }

/-- Number of end-of-stream sentinels in a result queue. -/
def sentinelCount {α : Type} (buf : List (Option α)) : ℕ :=
  (buf.filter Option.isNone).length

/-! ## Engine cache (`tts.py` lines 17, 168-182; `speaker_id.py` lines
11, 284-306)

`get_tts_engine` and `load_speaker_engine` contain no `await`: under the
process's single-threaded cooperative scheduler (they are only invoked
from coroutine code on the event loop) each call runs atomically, so two
concurrent calls execute sequentially in some order.  The model
therefore composes two sequential invocations.  Engine handles are
modelled by construction numbers: each underlying construction yields a
fresh handle. -/

/-- A module-level engine cache (`_tts_engines` / `_speaker_engines`)
together with the number of engine constructions performed so far. -/
structure CacheState where
  cache : List (String × ℕ)
  constructions : ℕ
deriving DecidableEq

/-- Model of `dict.get` on the cache dictionary. -/
def cacheGet : List (String × ℕ) → String → Option ℕ
  | [], _ => none
  | (k, v) :: rest, key => if k = key then some v else cacheGet rest key

/-- The `sample_rate` entries of the `tts_configs` table
(`tts.py` lines 80-106); `tts_configs[args.tts_model]` raises `KeyError`
— modelled by `none` — for any other name. -/
def ttsConfigsRate : List (String × ℕ) :=
  [("vits-zh-hf-theresa", 22050), ("vits-melo-tts-zh_en", 44100),
   ("kokoro-multi-lang-v1_0", 24000)]

/-- Model of `get_tts_engine` (`tts.py` lines 168-182): look up the model's
sample rate (`KeyError` when unknown), return the cached engine if
present, otherwise construct a fresh engine, cache it, and return it
with the sample rate. -/
def getTtsEngine (model : String) (st : CacheState) :
    Option ((ℕ × ℕ) × CacheState) :=
  match cacheGet ttsConfigsRate model with
  | none => none
  | some rate =>
    match cacheGet st.cache model with
    | some h => some ((h, rate), st)
    | none =>
      some ((st.constructions, rate),
        ⟨(model, st.constructions) :: st.cache, st.constructions + 1⟩)

/-- The model names `load_speaker_engine` can construct
(`speaker_id.py` lines 294-301). -/
def speakerModelNames : List String :=
  ["wespeaker-voxceleb", "3dspeaker", "nemo-speakernet"]

/-- Model of `load_speaker_engine` (`speaker_id.py` lines 284-306): return the
cached engine if present, otherwise construct (raising `ValueError` —
modelled `none` — for an unknown model name), cache, and return. -/
def loadSpeakerEngine (model : String) (st : CacheState) :
    Option (ℕ × CacheState) :=
  match cacheGet st.cache model with
  | some h => some (h, st)
  | none =>
    if model ∈ speakerModelNames then
      some (st.constructions, ⟨(model, st.constructions) :: st.cache, st.constructions + 1⟩)
    else none

/-! ## Concrete engine instances used as test vectors -/

/-- A TTS engine that synthesizes the two sentences `Hello` and `World`
(with prescribed callback chunks, returned samples and native rate) and
fails on anything else. -/
def genHW (chH chW : List (List ℚ)) (aH aW : List ℚ) (rH rW : ℕ) :
    List Char → EngineOut :=
  fun t =>
    if t = "Hello".data then ⟨chH, some ⟨aH, rH⟩⟩
    else if t = "World".data then ⟨chW, some ⟨aW, rW⟩⟩
    else ⟨[], none⟩

/-- A resampler argument for scenarios in which the target and native
rates coincide, so resampling is never invoked. -/
def rsUnused : List ℚ → ℕ → List ℚ := fun xs _ => xs

/-- An engine that synthesizes every requested segment identically: one
callback chunk `[1]` and returned audio `[1]` at native rate 10. -/
def genConst : List Char → EngineOut :=
  fun _ => ⟨[[1]], some ⟨[1], 10⟩⟩

/-- The input of the spec's TTS scenario. -/
def helloWorldText : List Char := "Hello. World.".data

/-- First split segment of `helloWorldText`. -/
def helloSeg : List Char := "Hello".data

/-- Second split segment of `helloWorldText` (before stripping). -/
def worldSegRaw : List Char := " World".data

/-- Second split segment of `helloWorldText` after stripping. -/
def worldSeg : List Char := "World".data

/-- The TTS text of a single-segment scenario (`split=false`). -/
def hiText : List Char := "Hi".data

/-- A two-segment TTS text without a trailing delimiter: splitting
yields exactly `[helloSeg, worldSeg]` and only the first segment gets an
inter-segment gap. -/
def helloCommaWorld : List Char := "Hello,World".data

/-- The non-final speech chunk `genConst` produces through
`on_process`: the single sample `1` scales to `32768` and clips to the
int16 maximum `32767`. -/
def speechR : TTSResult := mkTTSResult (some [32767]) false

/-- The silence-gap chunk enqueued between segments in the
`helloWorldText` scenario at rate 10 and `pause = 1/5`:
`int(10 * 0.2) = 2` zero samples. -/
def gapR : TTSResult := mkTTSResult (some [0, 0]) false

/-- The final summary result of the `helloWorldText` scenario: each of
the two segments contributes `(1 + 2)/10` seconds. -/
def finR : TTSResult :=
  { pcm_bytes := none, finished := true, progress := 1, elapsed := 0,
    audio_duration := 3/5, audio_size := 0 }

/-- A non-final chunk whose PCM payload is entirely zero — the shape of
an inter-segment silence gap. -/
def isSilence (r : TTSResult) : Bool :=
  match r.pcm_bytes with
  | some bs => bs.all (fun x => x == 0)
  | none => false

/-- The shape asserted by the spec for
`write("Hello. World.", split=true)`: exactly two non-empty groups of
non-final, non-silence chunks, separated by a single silence-gap chunk,
followed directly (no gap after the last segment) by exactly one final
chunk with `finished=true` and positive `audio_duration`. -/
def claimC1Shape (out : List TTSResult) : Prop :=
  ∃ g1 g2 gap fin, out = g1 ++ gap :: (g2 ++ [fin]) ∧
    g1 ≠ [] ∧ g2 ≠ [] ∧
    (∀ r ∈ g1, r.finished = false ∧ isSilence r = false) ∧
    (∀ r ∈ g2, r.finished = false ∧ isSilence r = false) ∧
    gap.finished = false ∧ isSilence gap = true ∧
    fin.finished = true ∧ 0 < fin.audio_duration

/-- Modelled from the spec: the output length
`round(len(samples) * to_rate / from_rate)` that §4.2/§8 of the spec
prescribe for the resampling step (to be compared with `ttsOutLen`,
the length the code actually requests). -/
def specRoundLen (n target original : ℕ) : ℕ :=
  (round (((n * target : ℕ) : ℚ) / (original : ℚ))).toNat

/-- A fresh `TTSStream`'s close-relevant state (`__init__` lines
213-214): open, empty output queue. -/
def ttsFresh : TTSStreamState := ⟨false, []⟩

/-- A fresh identification `SpeakerStream` at 16000 Hz with the default
threshold `0.7` (`speaker_id.py` lines 29-42). -/
def spkSt0 : SpeakerState :=
  { sample_rate := 16000, identification_threshold := 7/10,
    is_closed := false, inbuf := [], outbuf := [], audio_buffer := [] }

/-- A fresh identification stream at a tiny rate of 2 Hz (so that six
samples already make 3 seconds). -/
def spkStA : SpeakerState :=
  { sample_rate := 2, identification_threshold := 7/10,
    is_closed := false, inbuf := [], outbuf := [], audio_buffer := [] }

/-- A fresh identification stream at 1 Hz with threshold `1/2`. -/
def spkStB : SpeakerState :=
  { sample_rate := 1, identification_threshold := 1/2,
    is_closed := false, inbuf := [], outbuf := [], audio_buffer := [] }

/-- A speaker engine that is always ready, embeds everything to `[1, 2]`
and always matches the enrolled speaker `alice`. -/
def engAlice : SpeakerEngine :=
  ⟨fun _ => true, fun _ => [1, 2], fun _ _ => some "alice"⟩

/-- A speaker engine that is always ready, embeds everything to `[3]`
and never finds a match above the threshold. -/
def engNone : SpeakerEngine :=
  ⟨fun _ => true, fun _ => [3], fun _ _ => none⟩

/-!
# Theorems
-/

theorem split_helloWorldText :
    splitText helloWorldText = [helloSeg, worldSegRaw, []] := by decide

theorem split_helloCommaWorld :
    splitText helloCommaWorld = [helloSeg, worldSeg] := by decide

theorem strip_helloSeg : stripChars helloSeg = helloSeg := by decide

theorem strip_worldSegRaw : stripChars worldSegRaw = worldSeg := by decide

theorem strip_worldSeg : stripChars worldSeg = worldSeg := by decide

theorem strip_nil : stripChars [] = ([] : List Char) := by decide

theorem strip_hiText : stripChars hiText = hiText := by decide

theorem helloSeg_ne_nil : helloSeg ≠ [] := by decide

theorem worldSeg_ne_nil : worldSeg ≠ [] := by decide

theorem hiText_ne_nil : hiText ≠ [] := by decide

/-- Evaluation of `genHW` at the first stripped segment. -/
theorem genHW_helloSeg (chH chW : List (List ℚ)) (aH aW : List ℚ) (rH rW : ℕ) :
    genHW chH chW aH aW rH rW helloSeg = ⟨chH, some ⟨aH, rH⟩⟩ := by
  simp [genHW, helloSeg]

/-- Evaluation of `genHW` at the second stripped segment. -/
theorem genHW_worldSeg (chH chW : List (List ℚ)) (aH aW : List ℚ) (rH rW : ℕ) :
    genHW chH chW aH aW rH rW worldSeg = ⟨chW, some ⟨aW, rW⟩⟩ := by
  rw [genHW]
  rw [if_neg (by decide), if_pos (by decide)]

/-! ### C2 — resampled output length -/

/-- C2, counterexample: the spec says the resampling step outputs
`round(len(x) * r2 / r1)` samples; the code computes
`int(len(chunk) * target / original)` (`tts.py` lines 224-225, 308-309),
which truncates.  At one input sample, native rate 3 and target rate 2,
the code requests `int(2/3) = 0` samples while the spec's rounding gives
`round(2/3) = 1`. -/
theorem tts_resample_round_counterexample :
    ttsOutLen 1 2 3 = 0 ∧ specRoundLen 1 2 3 = 1 ∧
    ttsOutLen 1 2 3 ≠ specRoundLen 1 2 3 := by
  have h : specRoundLen 1 2 3 = 1 := by
    have hr : round ((2 : ℚ) / 3) = 1 := by
      rw [round_eq]
      rw [show ((2 : ℚ) / 3 + 1 / 2) = 7 / 6 by norm_num]
      rw [Int.floor_eq_iff]
      norm_num
    rw [specRoundLen]
    norm_num [hr]
  refine ⟨by decide, h, ?_⟩
  rw [h]
  decide

/-- C2, amended: for every chunk length and every pair of rates, the
resampling step of `on_process` and `generate` outputs
`floor(len(x) * r2 / r1)` samples (`int()` truncation, not rounding),
and is a no-op when the rates are equal. -/
theorem tts_resample_floor_length (n target original : ℕ)
    (h : 0 < original) :
    ttsOutLen n target original =
      ⌊((n : ℚ) * (target : ℚ)) / (original : ℚ)⌋₊ ∧
    ttsOutLen n original original = n := by
  constructor
  · rw [ttsOutLen]
    by_cases ht : target = original
    · subst ht
      rw [if_pos rfl]
      rw [mul_div_assoc, div_self (by exact_mod_cast h.ne'), mul_one,
        Nat.floor_natCast]
    · rw [if_neg ht, ttsResampleRequest]
      rw [show ((n : ℚ) * (target : ℚ)) = ((n * target : ℕ) : ℚ) by push_cast; ring]
      rw [Nat.floor_div_nat, Nat.floor_natCast]
  · simp [ttsOutLen]

/-- C2, witness for `tts_resample_floor_length` at `n = 1`, rates 2/3. -/
theorem tts_resample_floor_length_witness :
    0 < 3 ∧
    (ttsOutLen 1 2 3 = ⌊((1 : ℚ) * (2 : ℚ)) / (3 : ℚ)⌋₊ ∧
     ttsOutLen 1 3 3 = 1) :=
  ⟨by norm_num, by exact_mod_cast tts_resample_floor_length 1 2 3 (by norm_num)⟩

/-! ### C3 — odd-length byte buffers -/

/-- C3, counterexample: the claim says an odd-length buffer is dropped
and the write neither crashes nor terminates the stream.  In the code
(`speaker_id.py` lines 94-97) `np.frombuffer` raises `ValueError` and
nothing catches it: `write` on the one-byte buffer `[0]` propagates the
error instead of returning normally with the chunk dropped. -/
theorem speaker_write_odd_counterexample :
    speakerWrite spkSt0 [0] = Except.error frombufferError ∧
    speakerWrite spkSt0 [0] ≠ Except.ok spkSt0 := by
  refine ⟨rfl, ?_⟩
  intro h
  rw [show speakerWrite spkSt0 [0] = Except.error frombufferError from rfl] at h
  exact Except.noConfusion h

/-- C3, amended: for every odd-length byte buffer, decoding fails — but
the numpy `ValueError` propagates out of `write` (nothing is enqueued
and the caller sees the exception; the websocket handler in `app.py`
lines 849-867 then closes the stream in its `finally`), rather than the
chunk being dropped with the stream continuing. -/
theorem speaker_write_odd_raises (st : SpeakerState) (bytes : List ℕ)
    (h : bytes.length % 2 = 1) :
    speakerWrite st bytes = Except.error frombufferError := by
  simp only [speakerWrite, decodePcm16]
  rw [if_pos (by omega)]
  rfl

/-- C3, witness for `speaker_write_odd_raises` on a 3-byte buffer. -/
theorem speaker_write_odd_raises_witness :
    ([1, 2, 3] : List ℕ).length % 2 = 1 ∧
    speakerWrite spkSt0 [1, 2, 3] = Except.error frombufferError :=
  ⟨by decide, speaker_write_odd_raises spkSt0 [1, 2, 3] (by decide)⟩

/-! ### C7 — close() idempotence -/

/-- C7, counterexample: the claim says a second `close()` leaves a
single end-of-stream sentinel for a draining reader.  Both `close`
implementations (`tts.py` lines 288-291, `speaker_id.py` lines 90-92)
enqueue a sentinel unconditionally, so two `close()` calls on a fresh
stream leave two sentinels in the output queue. -/
theorem close_twice_two_sentinels_counterexample :
    sentinelCount (ttsClose (ttsClose ttsFresh)).outbuf = 2 ∧
    sentinelCount (speakerClose (speakerClose spkSt0)).outbuf = 2 := by
  exact ⟨rfl, rfl⟩

/-- C7, amended: a second `close()` causes no error (both
implementations are total: they set `is_closed` and enqueue a sentinel),
but `close()` is not idempotent in its queue effect — each call appends
exactly one sentinel, so a reader fully draining the queue after two
`close()` calls observes two sentinels.  (A reader that stops at the
first sentinel, as the `app.py` pumps do, observes one.) -/
theorem close_appends_one_sentinel_per_call (stT : TTSStreamState)
    (stS : SpeakerState) :
    ttsClose (ttsClose stT) = ⟨true, stT.outbuf ++ [none, none]⟩ ∧
    (ttsClose stT).is_closed = true ∧
    speakerClose (speakerClose stS) =
      { stS with is_closed := true, outbuf := stS.outbuf ++ [none, none] } ∧
    (speakerClose stS).is_closed = true := by
  refine ⟨?_, rfl, ?_, rfl⟩ <;> simp [ttsClose, speakerClose]

/-! ### C4, C5 — speaker identification buffering and verdicts -/

/-- The buffered-duration test `len(buffer)/rate >= 3.0` of
`speaker_id.py` lines 54-55, stated over sample counts. -/
theorem speaker_duration_cond (st : SpeakerState) (samples : List ℚ)
    (hr : 0 < st.sample_rate) :
    ((3 : ℚ) ≤ ((st.audio_buffer ++ samples).length : ℚ) / (st.sample_rate : ℚ)) ↔
      3 * st.sample_rate ≤ st.audio_buffer.length + samples.length := by
  rw [le_div_iff₀ (show (0 : ℚ) < (st.sample_rate : ℚ) by exact_mod_cast hr)]
  rw [List.length_append]
  exact_mod_cast Iff.rfl

/-- C4: one iteration of the identification loop on an open stream with
a ready extractor.  Below 3.0 s of buffered audio no verdict is
produced and the buffer only accumulates; once the buffered duration
reaches 3.0 s, exactly one verdict is enqueued and the buffer is empty
immediately afterwards, so the next chunk restarts accumulation from
zero samples. -/
theorem speaker_buffer_threshold (eng : SpeakerEngine) (st : SpeakerState)
    (samples : List ℚ) (hr : 0 < st.sample_rate)
    (hready : ∀ b, eng.ready b = true) :
    (st.audio_buffer.length + samples.length < 3 * st.sample_rate →
      (speakerStep eng st samples).outbuf = st.outbuf ∧
      (speakerStep eng st samples).audio_buffer = st.audio_buffer ++ samples) ∧
    (3 * st.sample_rate ≤ st.audio_buffer.length + samples.length →
      (∃ v : SpeakerResult,
        (speakerStep eng st samples).outbuf = st.outbuf ++ [some v]) ∧
      (speakerStep eng st samples).audio_buffer = []) := by
  constructor
  · intro h
    have hc : ¬ ((3 : ℚ) ≤ ((st.audio_buffer ++ samples).length : ℚ) /
        (st.sample_rate : ℚ)) := by
      rw [speaker_duration_cond st samples hr]
      omega
    rw [List.length_append] at hc
    push_cast at hc
    constructor <;> simp [speakerStep, hc]
  · intro h
    have hc := (speaker_duration_cond st samples hr).mpr h
    rw [List.length_append] at hc
    push_cast at hc
    refine ⟨?_, ?_⟩
    · cases hs : eng.search (eng.compute (st.audio_buffer ++ samples))
          st.identification_threshold with
      | some name =>
        exact ⟨⟨name, st.identification_threshold + 1/20,
          eng.compute (st.audio_buffer ++ samples)⟩,
          by simp [speakerStep, hc, hready, hs]⟩
      | none =>
        exact ⟨⟨"unknown", 0, eng.compute (st.audio_buffer ++ samples)⟩,
          by simp [speakerStep, hc, hready, hs]⟩
    · cases hs : eng.search (eng.compute (st.audio_buffer ++ samples))
          st.identification_threshold <;>
        simp [speakerStep, hc, hready, hs]

/-- C4, witness for `speaker_buffer_threshold`: 1 Hz stream, one chunk
of three samples. -/
theorem speaker_buffer_threshold_witness :
    0 < spkStB.sample_rate ∧ (∀ b, engNone.ready b = true) ∧
    ((spkStB.audio_buffer.length + ([0, 0, 0] : List ℚ).length <
        3 * spkStB.sample_rate →
      (speakerStep engNone spkStB [0, 0, 0]).outbuf = spkStB.outbuf ∧
      (speakerStep engNone spkStB [0, 0, 0]).audio_buffer =
        spkStB.audio_buffer ++ [0, 0, 0]) ∧
     (3 * spkStB.sample_rate ≤
        spkStB.audio_buffer.length + ([0, 0, 0] : List ℚ).length →
      (∃ v : SpeakerResult,
        (speakerStep engNone spkStB [0, 0, 0]).outbuf =
          spkStB.outbuf ++ [some v]) ∧
      (speakerStep engNone spkStB [0, 0, 0]).audio_buffer = [])) :=
  ⟨by decide, fun _ => rfl,
   speaker_buffer_threshold engNone spkStB [0, 0, 0] (by decide) (fun _ => rfl)⟩

/-- C5: the verdict emitted by a completed identification attempt always
carries the raw embedding; a registry match yields the matched name with
confidence `threshold + 0.05`, and no match yields `"unknown"` with
confidence `0.0` (`speaker_id.py` lines 63-88). -/
theorem speaker_verdict_contents (eng : SpeakerEngine) (st : SpeakerState)
    (samples : List ℚ) (hr : 0 < st.sample_rate)
    (hready : eng.ready (st.audio_buffer ++ samples) = true)
    (hdur : 3 * st.sample_rate ≤ st.audio_buffer.length + samples.length) :
    (speakerStep eng st samples).outbuf = st.outbuf ++
      [some (match eng.search (eng.compute (st.audio_buffer ++ samples))
               st.identification_threshold with
             | some name =>
               ⟨name, st.identification_threshold + 1/20,
                eng.compute (st.audio_buffer ++ samples)⟩
             | none =>
               ⟨"unknown", 0, eng.compute (st.audio_buffer ++ samples)⟩)] := by
  have hc := (speaker_duration_cond st samples hr).mpr hdur
  rw [List.length_append] at hc
  push_cast at hc
  cases hs : eng.search (eng.compute (st.audio_buffer ++ samples))
      st.identification_threshold <;>
    simp [speakerStep, hc, hready, hs]

/-- C5, witness for `speaker_verdict_contents`: 2 Hz stream, six
samples, an engine matching `alice` at threshold `0.7`. -/
theorem speaker_verdict_contents_witness :
    0 < spkStA.sample_rate ∧
    engAlice.ready (spkStA.audio_buffer ++ [0, 0, 0, 0, 0, 0]) = true ∧
    3 * spkStA.sample_rate ≤
      spkStA.audio_buffer.length + ([0, 0, 0, 0, 0, 0] : List ℚ).length ∧
    (speakerStep engAlice spkStA [0, 0, 0, 0, 0, 0]).outbuf =
      spkStA.outbuf ++
      [some (match engAlice.search
               (engAlice.compute (spkStA.audio_buffer ++ [0, 0, 0, 0, 0, 0]))
               spkStA.identification_threshold with
             | some name =>
               ⟨name, spkStA.identification_threshold + 1/20,
                engAlice.compute (spkStA.audio_buffer ++ [0, 0, 0, 0, 0, 0])⟩
             | none =>
               ⟨"unknown", 0,
                engAlice.compute (spkStA.audio_buffer ++ [0, 0, 0, 0, 0, 0])⟩)] :=
  ⟨by decide, rfl, by decide,
   speaker_verdict_contents engAlice spkStA [0, 0, 0, 0, 0, 0] (by decide) rfl
     (by decide)⟩

/-! ### C8 — engine cache -/

/-- A freshly inserted cache entry is found by the next lookup. -/
theorem cacheGet_head (l : List (String × ℕ)) (k : String) (v : ℕ) :
    cacheGet ((k, v) :: l) k = some v := by
  simp [cacheGet]

/-- C8: `get_tts_engine` and `load_speaker_engine` contain no suspension
point, so two concurrent calls from event-loop coroutines run atomically
one after the other; for any model not yet cached, the first call
performs the single construction and the second returns the identical
cached handle without constructing or changing the cache. -/
theorem engine_cache_single_construction
    (mt ms : String) (stT stS : CacheState) (rate : ℕ)
    (hmt : cacheGet ttsConfigsRate mt = some rate)
    (hct : cacheGet stT.cache mt = none)
    (hms : ms ∈ speakerModelNames)
    (hcs : cacheGet stS.cache ms = none) :
    (getTtsEngine mt stT =
       some ((stT.constructions, rate),
         ⟨(mt, stT.constructions) :: stT.cache, stT.constructions + 1⟩) ∧
     getTtsEngine mt ⟨(mt, stT.constructions) :: stT.cache, stT.constructions + 1⟩ =
       some ((stT.constructions, rate),
         ⟨(mt, stT.constructions) :: stT.cache, stT.constructions + 1⟩)) ∧
    (loadSpeakerEngine ms stS =
       some (stS.constructions,
         ⟨(ms, stS.constructions) :: stS.cache, stS.constructions + 1⟩) ∧
     loadSpeakerEngine ms ⟨(ms, stS.constructions) :: stS.cache, stS.constructions + 1⟩ =
       some (stS.constructions,
         ⟨(ms, stS.constructions) :: stS.cache, stS.constructions + 1⟩)) := by
  refine ⟨⟨?_, ?_⟩, ?_, ?_⟩
  · simp [getTtsEngine, hmt, hct]
  · simp [getTtsEngine, hmt, cacheGet_head]
  · simp [loadSpeakerEngine, hcs, hms]
  · simp [loadSpeakerEngine, cacheGet_head]

/-- C8, witness for `engine_cache_single_construction` on the kokoro
TTS model and the nemo speaker model starting from empty caches. -/
theorem engine_cache_single_construction_witness :
    cacheGet ttsConfigsRate "kokoro-multi-lang-v1_0" = some 24000 ∧
    cacheGet (⟨[], 0⟩ : CacheState).cache "kokoro-multi-lang-v1_0" = none ∧
    "nemo-speakernet" ∈ speakerModelNames ∧
    cacheGet (⟨[], 0⟩ : CacheState).cache "nemo-speakernet" = none ∧
    ((getTtsEngine "kokoro-multi-lang-v1_0" ⟨[], 0⟩ =
        some ((0, 24000), ⟨[("kokoro-multi-lang-v1_0", 0)], 1⟩) ∧
      getTtsEngine "kokoro-multi-lang-v1_0" ⟨[("kokoro-multi-lang-v1_0", 0)], 1⟩ =
        some ((0, 24000), ⟨[("kokoro-multi-lang-v1_0", 0)], 1⟩)) ∧
     (loadSpeakerEngine "nemo-speakernet" ⟨[], 0⟩ =
        some (0, ⟨[("nemo-speakernet", 0)], 1⟩) ∧
      loadSpeakerEngine "nemo-speakernet" ⟨[("nemo-speakernet", 0)], 1⟩ =
        some (0, ⟨[("nemo-speakernet", 0)], 1⟩))) :=
  ⟨by decide, rfl, by decide, rfl,
   engine_cache_single_construction "kokoro-multi-lang-v1_0" "nemo-speakernet"
     ⟨[], 0⟩ ⟨[], 0⟩ 24000 (by decide) rfl (by decide) rfl⟩

/-! ### C9 — results after close() -/

/-- A closed stream's `on_process` enqueues nothing, so the per-segment
callback results are empty. -/
theorem segmentOut_closed_results (gen : List Char → EngineOut)
    (target original : ℕ) (rs : List ℚ → ℕ → List ℚ) (needGap : Bool)
    (pause : ℚ) (txt : List Char) :
    (segmentOut gen true target original rs needGap pause txt).1 = [] := by
  have hfm : ∀ l : List (List ℚ),
      l.filterMap (onProcess true target original rs) = [] := by
    intro l
    induction l with
    | nil => rfl
    | cons c cs ih => simp [List.filterMap_cons, onProcess, ih]
  cases h : (gen txt).result with
  | none => simp [segmentOut, h, hfm]
  | some audio =>
    by_cases h2 : audio.sample_rate = 0 ∨ audio.samples = [] <;>
      simp [segmentOut, h, h2, hfm, onProcess]

/-- On a closed stream the whole segment loop enqueues nothing. -/
theorem writeLoop_closed_results (gen : List Char → EngineOut)
    (target original : ℕ) (rs : List ℚ → ℕ → List ℚ) (split : Bool)
    (pause : ℚ) (n : ℕ) (texts : List (List Char)) (idx : ℕ) :
    (writeLoop gen true target original rs split pause n idx texts).1 = [] := by
  induction texts generalizing idx with
  | nil => rfl
  | cons txt rest ih =>
    rw [writeLoop]
    by_cases hs : stripChars txt = [] <;>
      simp [hs, ih, segmentOut_closed_results]

/-- C9, amended: once `close()` has set `is_closed`, an in-flight
`write` enqueues no further non-final audio chunk (`on_process` returns
immediately, `tts.py` lines 219-220), but the final summary `put` on
line 286 is unconditional: the reader still receives exactly one final
`finished=true` result after the sentinel, rather than nothing. -/
theorem tts_write_after_close_only_final (gen : List Char → EngineOut)
    (target original : ℕ) (rs : List ℚ → ℕ → List ℚ) (elapsed : ℚ)
    (text : List Char) (split : Bool) (pause : ℚ) :
    ∃ d, ttsWrite gen true target original rs elapsed text split pause =
      [{ pcm_bytes := none, finished := true, progress := 1,
         elapsed := elapsed, audio_duration := d, audio_size := 0 }] := by
  refine ⟨(ttsWriteAcc gen true target original rs text split pause).2.1, ?_⟩
  have hacc : (ttsWriteAcc gen true target original rs text split pause).1 = [] := by
    rw [ttsWriteAcc]
    exact writeLoop_closed_results gen target original rs split pause _ _ 0
  rw [ttsWrite, hacc]
  rfl

/-- C9, counterexample: the claim says that after `close()` no further
result at all — in particular no final summary — is enqueued.  Writing
`"Hi"` on a closed stream still enqueues the final summary (with the
duration of the audio the engine returned, since the dispatched
synthesis ran to completion). -/
theorem tts_write_after_close_counterexample :
    ttsWrite genConst true 10 10 rsUnused 0 hiText false (1/5) =
      [{ pcm_bytes := none, finished := true, progress := 1, elapsed := 0,
         audio_duration := 1/10, audio_size := 0 }] ∧
    ttsWrite genConst true 10 10 rsUnused 0 hiText false (1/5) ≠ [] := by
  have h : ttsWrite genConst true 10 10 rsUnused 0 hiText false (1/5) =
      [{ pcm_bytes := none, finished := true, progress := 1, elapsed := 0,
         audio_duration := 1/10, audio_size := 0 }] := by
    simp only [ttsWrite, ttsWriteAcc]
    norm_num [writeLoop, strip_hiText, hiText_ne_nil, segmentOut, genConst,
      onProcess, List.filterMap_cons]
  exact ⟨h, by rw [h]; simp⟩

/-! ### C6 — contents of the final summary -/

/-- C6: evaluation of `write("Hi", split=false)` with an engine that
synthesizes one sample.  The segment loop accumulates
`audio_size = 1` (second conjunct), yet the final summary is enqueued
with `audio_size = 0`: lines 281-285 of `tts.py` assign `elapsed`,
`audio_duration`, `progress` and `finished` to the result but never the
accumulated `audio_size`, so the terminal summary does not carry the
total sample count the spec promises.  The non-final chunk carries only
the PCM payload (all summary fields at their zero defaults). -/
theorem tts_final_summary_drops_audio_size :
    ttsWrite genConst false 10 10 rsUnused 0 hiText false (1/5) =
      [speechR,
       { pcm_bytes := none, finished := true, progress := 1, elapsed := 0,
         audio_duration := 1/10, audio_size := 0 }] ∧
    (ttsWriteAcc genConst false 10 10 rsUnused hiText false (1/5)).2.2 = 1 := by
  constructor
  · simp only [ttsWrite, ttsWriteAcc]
    norm_num [writeLoop, strip_hiText, hiText_ne_nil, segmentOut, genConst,
      onProcess, onProcessChunk, encodePcm16, int16OfSample, truncToInt,
      mkTTSResult, List.filterMap_cons, speechR]
  · simp only [ttsWriteAcc]
    norm_num [writeLoop, strip_hiText, hiText_ne_nil, segmentOut, genConst,
      onProcess, onProcessChunk, List.filterMap_cons]

/-! ### C1 — write("Hello. World.", split=true) -/

/-- Full evaluation of the spec's scenario: the queue receives the
first segment's speech chunk, a gap chunk, the second segment's speech
chunk, a second gap chunk — the text's trailing `.` makes
`re.split` yield a trailing empty segment, so `idx < len(texts) - 1`
also holds for `World` — and the final summary. -/
theorem helloWorld_out_eq :
    ttsWrite genConst false 10 10 rsUnused 0 helloWorldText true (1/5) =
      [speechR, gapR, speechR, gapR, finR] := by
  simp only [ttsWrite, ttsWriteAcc, split_helloWorldText]
  norm_num [writeLoop, strip_helloSeg, strip_worldSegRaw, strip_nil,
    helloSeg_ne_nil, worldSeg_ne_nil, segmentOut, genConst, onProcess,
    onProcessChunk, encodePcm16, int16OfSample, truncToInt, gapLen,
    mkTTSResult, ttsResampleRequest, List.replicate,
    List.filterMap_cons, show (2 : ℤ).toNat = 2 from rfl,
    speechR, gapR, finR]

/-- C1, counterexample: the spec's claimed shape — two non-final groups
separated by a single silence gap, no gap after the last segment, then
the final chunk — does not hold: the actual queue contents are
`[speech, gap, speech, gap, final]`, with a silence-gap chunk after the
last segment. -/
theorem tts_split_two_sentences_counterexample :
    ¬ claimC1Shape
        (ttsWrite genConst false 10 10 rsUnused 0 helloWorldText true (1/5)) := by
  rw [helloWorld_out_eq]
  rintro ⟨g1, g2, gap, fin, heq, hne1, hne2, h1, h2, hgapf, hgaps, hfin, hfd⟩
  rcases g1 with _ | ⟨a, g1⟩
  · exact hne1 rfl
  rcases g1 with _ | ⟨b, g1⟩
  · simp only [List.cons_append, List.nil_append, List.cons.injEq] at heq
    obtain ⟨ha, hgap, heq⟩ := heq
    rcases g2 with _ | ⟨c, g2⟩
    · exact hne2 rfl
    rcases g2 with _ | ⟨d, g2⟩
    · simp at heq
    · simp only [List.cons_append, List.cons.injEq] at heq
      obtain ⟨hc, hd, _⟩ := heq
      have hds := (h2 d (by simp)).2
      rw [← hd] at hds
      exact (by decide : isSilence gapR ≠ false) hds
  · simp only [List.cons_append, List.cons.injEq] at heq
    obtain ⟨ha, hb, _⟩ := heq
    have hbs := (h1 b (by simp)).2
    rw [← hb] at hbs
    exact (by decide : isSilence gapR ≠ false) hbs

/-- On an open stream `on_process` always enqueues the encoded chunk. -/
theorem onProcess_open (target original : ℕ) (rs : List ℚ → ℕ → List ℚ)
    (chunk : List ℚ) :
    onProcess false target original rs chunk =
      some (onProcessChunk target original rs chunk) := rfl

/-- C1, amended: on `write("Hello. World.", split=true)` with an open
stream whose engine synthesizes both sentences, the queue receives the
first segment's chunk group, a silence-gap chunk, the second segment's
chunk group, then a *second* silence-gap chunk — the trailing delimiter
of the text produces a trailing empty segment, so `idx < len(texts)-1`
also holds for the last synthesized segment — and finally exactly one
final chunk with `finished=true` and `audio_duration > 0` (both gaps
included in the duration). -/
theorem tts_split_trailing_gap
    (chH chW : List (List ℚ)) (aH aW : List ℚ)
    (rH rW target original : ℕ) (rs : List ℚ → ℕ → List ℚ)
    (elapsed pause : ℚ)
    (hH : aH ≠ []) (hW : aW ≠ []) (hrH : rH ≠ 0) (hrW : rW ≠ 0) :
    ttsWrite (genHW chH chW aH aW rH rW) false target original rs elapsed
        helloWorldText true pause =
      (chH.filterMap (onProcess false target original rs)) ++
      onProcessChunk target original rs (List.replicate (gapLen rH pause) 0) ::
      ((chW.filterMap (onProcess false target original rs)) ++
       [onProcessChunk target original rs (List.replicate (gapLen rW pause) 0),
        { pcm_bytes := none, finished := true, progress := 1,
          elapsed := elapsed,
          audio_duration :=
            ((aH.length : ℚ) + (gapLen rH pause : ℚ)) / (rH : ℚ) +
            ((aW.length : ℚ) + (gapLen rW pause : ℚ)) / (rW : ℚ),
          audio_size := 0 }]) ∧
    0 < ((aH.length : ℚ) + (gapLen rH pause : ℚ)) / (rH : ℚ) +
        ((aW.length : ℚ) + (gapLen rW pause : ℚ)) / (rW : ℚ) := by
  have hpos : ∀ (a : List ℚ) (r : ℕ), a ≠ [] → r ≠ 0 →
      0 < ((a.length : ℚ) + (gapLen r pause : ℚ)) / (r : ℚ) := by
    intro a r ha hr
    apply div_pos
    · have h1 : (0 : ℚ) < (a.length : ℚ) := by
        exact_mod_cast List.length_pos.mpr ha
      have h2 : (0 : ℚ) ≤ (gapLen r pause : ℚ) := by positivity
      linarith
    · exact_mod_cast Nat.pos_of_ne_zero hr
  constructor
  · simp only [ttsWrite, ttsWriteAcc, split_helloWorldText]
    simp only [writeLoop, strip_helloSeg, strip_worldSegRaw, strip_nil,
      segmentOut, genHW_helloSeg, genHW_worldSeg, helloSeg_ne_nil,
      worldSeg_ne_nil, hrH, hrW, hH, hW, onProcess_open, Option.toList_some]
    norm_num
  · exact add_pos (hpos aH rH hH hrH) (hpos aW rW hW hrW)

/-- C1, witness for `tts_split_trailing_gap` with the engine `genHW`
instantiated by one-chunk one-sample audio at rate 10 for both
sentences. -/
theorem tts_split_trailing_gap_witness :
    ([1] : List ℚ) ≠ [] ∧ (10 : ℕ) ≠ 0 ∧
    (ttsWrite (genHW [[1]] [[1]] [1] [1] 10 10) false 10 10 rsUnused 0
        helloWorldText true (1/5) =
      (([[1]] : List (List ℚ)).filterMap (onProcess false 10 10 rsUnused)) ++
      onProcessChunk 10 10 rsUnused (List.replicate (gapLen 10 (1/5)) 0) ::
      ((([[1]] : List (List ℚ)).filterMap (onProcess false 10 10 rsUnused)) ++
       [onProcessChunk 10 10 rsUnused (List.replicate (gapLen 10 (1/5)) 0),
        { pcm_bytes := none, finished := true, progress := 1, elapsed := 0,
          audio_duration :=
            ((([1] : List ℚ).length : ℚ) + (gapLen 10 (1/5) : ℚ)) / (10 : ℚ) +
            ((([1] : List ℚ).length : ℚ) + (gapLen 10 (1/5) : ℚ)) / (10 : ℚ),
          audio_size := 0 }]) ∧
     0 < ((([1] : List ℚ).length : ℚ) + (gapLen 10 (1/5) : ℚ)) / (10 : ℚ) +
         ((([1] : List ℚ).length : ℚ) + (gapLen 10 (1/5) : ℚ)) / (10 : ℚ)) :=
  ⟨by decide, by decide,
   tts_split_trailing_gap [[1]] [[1]] [1] [1] 10 10 10 10 rsUnused 0 (1/5)
     (by decide) (by decide) (by decide) (by decide)⟩

/-! ### C10 — gaps are counted in the accumulated duration and size -/

/-- C10: on a two-segment split (`"Hello,World"`, no trailing
delimiter) the silence gap appended to the first segment is counted in
the accumulated `audio_duration` and `audio_size` (`tts.py` lines
265-271): the duration the final summary reports exceeds the pure
synthesized-speech duration by exactly the pause length for the one
segment that received a gap, and the accumulated size counts the gap's
`int(rate * pause)` zero samples. -/
theorem gap_counted_in_duration_and_size
    (aH aW : List ℚ) (r g target original : ℕ) (rs : List ℚ → ℕ → List ℚ)
    (elapsed pause : ℚ)
    (hH : aH ≠ []) (hW : aW ≠ []) (hr : r ≠ 0)
    (hg : (r : ℚ) * pause = (g : ℚ)) :
    (ttsWriteAcc (genHW [] [] aH aW r r) false target original rs
        helloCommaWorld true pause).2.1 =
      ((aH.length : ℚ) / (r : ℚ) + (aW.length : ℚ) / (r : ℚ)) + pause ∧
    (ttsWriteAcc (genHW [] [] aH aW r r) false target original rs
        helloCommaWorld true pause).2.2 = (aH.length + g) + aW.length ∧
    (ttsWrite (genHW [] [] aH aW r r) false target original rs elapsed
        helloCommaWorld true pause).getLast? =
      some { pcm_bytes := none, finished := true, progress := 1,
             elapsed := elapsed,
             audio_duration :=
               ((aH.length : ℚ) / (r : ℚ) + (aW.length : ℚ) / (r : ℚ)) + pause,
             audio_size := 0 } := by
  have hgl : gapLen r pause = g := by
    rw [gapLen, hg]
    simp [truncToInt, Rat.num_natCast, Rat.den_natCast, Nat.cast_nonneg]
  have hrq : (r : ℚ) ≠ 0 := by exact_mod_cast hr
  have hpause : (g : ℚ) / (r : ℚ) = pause := by
    rw [← hg, mul_comm, mul_div_assoc, div_self hrq, mul_one]
  have hacc : (ttsWriteAcc (genHW [] [] aH aW r r) false target original rs
      helloCommaWorld true pause).2.1 =
      ((aH.length : ℚ) / (r : ℚ) + (aW.length : ℚ) / (r : ℚ)) + pause := by
    simp only [ttsWriteAcc, split_helloCommaWorld]
    simp only [writeLoop, strip_helloSeg, strip_worldSeg, segmentOut,
      genHW_helloSeg, genHW_worldSeg, helloSeg_ne_nil, worldSeg_ne_nil,
      hr, hH, hW, hgl]
    norm_num
    rw [← hpause]
    ring
  refine ⟨hacc, ?_, ?_⟩
  · simp only [ttsWriteAcc, split_helloCommaWorld]
    simp only [writeLoop, strip_helloSeg, strip_worldSeg, segmentOut,
      genHW_helloSeg, genHW_worldSeg, helloSeg_ne_nil, worldSeg_ne_nil,
      hr, hH, hW, hgl]
    norm_num
  · rw [ttsWrite]
    rw [List.getLast?_concat, hacc]

/-- C10, witness for `gap_counted_in_duration_and_size`: rate 5,
`pause = 2/5`, so the gap is `int(5 * 0.4) = 2` samples. -/
theorem gap_counted_in_duration_and_size_witness :
    ([1] : List ℚ) ≠ [] ∧ (5 : ℕ) ≠ 0 ∧ ((5 : ℕ) : ℚ) * (2/5) = ((2 : ℕ) : ℚ) ∧
    ((ttsWriteAcc (genHW [] [] [1] [1] 5 5) false 5 5 rsUnused
        helloCommaWorld true (2/5)).2.1 =
      ((([1] : List ℚ).length : ℚ) / ((5 : ℕ) : ℚ) +
       (([1] : List ℚ).length : ℚ) / ((5 : ℕ) : ℚ)) + 2/5 ∧
     (ttsWriteAcc (genHW [] [] [1] [1] 5 5) false 5 5 rsUnused
        helloCommaWorld true (2/5)).2.2 = (([1] : List ℚ).length + 2) + ([1] : List ℚ).length ∧
     (ttsWrite (genHW [] [] [1] [1] 5 5) false 5 5 rsUnused 0
        helloCommaWorld true (2/5)).getLast? =
      some { pcm_bytes := none, finished := true, progress := 1, elapsed := 0,
             audio_duration :=
               ((([1] : List ℚ).length : ℚ) / ((5 : ℕ) : ℚ) +
                (([1] : List ℚ).length : ℚ) / ((5 : ℕ) : ℚ)) + 2/5,
             audio_size := 0 }) :=
  ⟨by decide, by decide, by norm_num,
   gap_counted_in_duration_and_size [1] [1] 5 2 5 5 rsUnused 0 (2/5)
     (by decide) (by decide) (by decide) (by norm_num)⟩
